import Mathlib

/-!
Shallow embedding of the dots game's core logic (scenes/mainScene.js) for
verification: board compaction, chain selection, scoring and round control.
The rendering-engine constants file is not part of the embedded sources, so
grid dimensions and the two parity-keyed adjacency offset lists are taken as
parameters, and the engine's random color picker and object identities are
abstracted into an oracle (`CircleSource`).
-/

namespace Dots

/-- A circle (token) on the board. Mirrors the attributes the scene code sets on
each Phaser circle object: `color`, `gridX`, `gridY`, plus the engine's
`active` flag (false once destroyed) and an `id` standing for JS object
identity. -/
structure Circle where
  color : Nat
  gridX : Nat
  gridY : Nat
  active : Bool
  id : Nat
deriving DecidableEq, Repr

/-- Oracle for the data the engine supplies when a circle is created:
the randomly picked color and the new object's identity, indexed by column
and target slot. -/
structure CircleSource where
  colorAt : Nat → Nat → Nat
  idAt : Nat → Nat → Nat

/-- createNewCircle: builds a circle with the given color and identity at grid
position (x, gridY); a freshly created circle is active. The pixel-position
arithmetic of the source is presentation-only and not modelled. -/
def createNewCircle (color : Nat) (newId : Nat) (x : Nat) (gridY : Nat) : Circle :=
  { color := color, gridX := x, gridY := gridY, active := true, id := newId }

/-- The bottom-to-top scan of updateBoard over one column (source iterates
i from length-1 down to 0): returns the final `spacesToMove` count and the
`remainingCircles` list in push order (bottom-most survivor first), each
survivor's gridY increased by the number of dead slots scanned below it. -/
def columnScan : List Circle → Nat × List Circle
  | [] => (0, [])
  | c :: rest =>
    let scanned := columnScan rest
    if c.active = false then
      (scanned.1 + 1, scanned.2)
    else
      (scanned.1, scanned.2 ++ [{ c with gridY := c.gridY + scanned.1 }])

/-- addNewCirclesToColumn: spawns `GRID_HEIGHT - remainingCircles.length` new
circles with gridY 0, 1, ... and rebuilds the column as the new circles
followed by the reversed remaining (surviving) circles. -/
def addNewCirclesToColumn (GRID_HEIGHT : Nat) (src : CircleSource)
    (curColumnIndex : Nat) (remainingCircles : List Circle) : List Circle :=
  let spacesToMoveDown := GRID_HEIGHT - remainingCircles.length
  let newCircles := (List.range spacesToMoveDown).map
    (fun gridY =>
      createNewCircle (src.colorAt curColumnIndex gridY) (src.idAt curColumnIndex gridY)
        curColumnIndex gridY)
  newCircles ++ remainingCircles.reverse

/-- The per-column body of updateBoard: scan the column bottom-to-top, drop
dead circles and let survivors fall, then refill from the top. -/
def updateColumn (GRID_HEIGHT : Nat) (src : CircleSource)
    (column : Nat) (curColumn : List Circle) : List Circle :=
  addNewCirclesToColumn GRID_HEIGHT src column (columnScan curColumn).2

/-- Number of dead (inactive) circles in a list; used to state how far a
surviving circle falls (the dead slots below it). -/
def deadBelowCount (l : List Circle) : Nat :=
  (l.filter (fun c => c.active = false)).length

/-- Modelled from the spec: the column's surviving circles in original
top-to-bottom order, each shifted down by its cumulative gap count (the
number of dead slots originally below it). Used to compare the code's
compaction against the spec's description. -/
def specFallenSurvivors : List Circle → List Circle
  | [] => []
  | c :: rest =>
    if c.active then
      { c with gridY := c.gridY + deadBelowCount rest } :: specFallenSurvivors rest
    else
      specFallenSurvivors rest

theorem columnScan_fst (col : List Circle) : (columnScan col).1 = deadBelowCount col := by
  induction col with
  | nil => rfl
  | cons c rest ih =>
    simp only [columnScan, deadBelowCount]
    by_cases h : c.active = false
    · simp [h, ih, deadBelowCount, List.filter]
    · simp [h, ih, deadBelowCount, List.filter]

theorem columnScan_snd (col : List Circle) :
    (columnScan col).2 = (specFallenSurvivors col).reverse := by
  induction col with
  | nil => rfl
  | cons c rest ih =>
    simp only [columnScan, specFallenSurvivors]
    by_cases h : c.active = false
    · simp [h, ih]
    · have ha : c.active = true := by
        cases hc : c.active with
        | false => exact absurd hc h
        | true => rfl
      simp [h, ha, ih, columnScan_fst]

theorem specFallenSurvivors_length (col : List Circle) :
    (specFallenSurvivors col).length = (col.filter (fun c => c.active)).length := by
  induction col with
  | nil => rfl
  | cons c rest ih =>
    simp only [specFallenSurvivors]
    by_cases h : c.active
    · simp [h, ih, List.filter]
    · simp [h, ih, List.filter]

theorem specFallenSurvivors_all_active (col : List Circle) :
    ∀ c ∈ specFallenSurvivors col, c.active = true := by
  induction col with
  | nil => intro c hc; simp [specFallenSurvivors] at hc
  | cons c rest ih =>
    intro d hd
    simp only [specFallenSurvivors] at hd
    by_cases h : c.active
    · simp [h] at hd
      rcases hd with hd | hd
      · subst hd; rfl
      · exact ih d hd
    · simp [h] at hd
      exact ih d hd

theorem columnScan_length (col : List Circle) :
    (columnScan col).2.length = (col.filter (fun c => c.active)).length := by
  rw [columnScan_snd, List.length_reverse, specFallenSurvivors_length]

theorem specFallenSurvivors_map_eq (col : List Circle) :
    (specFallenSurvivors col).map (fun c => (c.id, c.color, c.gridX))
      = (col.filter (fun c => c.active)).map (fun c => (c.id, c.color, c.gridX)) := by
  induction col with
  | nil => rfl
  | cons c rest ih =>
    simp only [specFallenSurvivors]
    by_cases h : c.active
    · simp [h, ih, List.filter]
    · simp [h, ih, List.filter]

/-- The MainScene fields that the core (non-presentation) logic reads and
writes: the board, the selection chain, the loop flag and its similar-color
set, the score bookkeeping, and the round/refill/menu flags. -/
structure SceneState where
  board : List (List Circle)
  selectedCircles : List Circle
  loopCreated : Bool
  allSimilarColorCircles : List Circle
  currentPointsToAdd : Int
  score : Int
  highScore : Int
  gameIsRunning : Bool
  boardRefillHappening : Bool
  menuShown : Bool
deriving DecidableEq, Repr

/-- The adjacency-plus-color test between the chain's tail and a candidate,
keyed by the tail's row parity: even rows use the right-leaning offset list,
odd rows the left-leaning one, and the colors must agree. This is the body of
isValidNextCircle for a nonempty chain, factored out so chain invariants can
be stated pairwise. -/
def validPair (RIGHT_LEANING LEFT_LEANING : List (Int × Int))
    (lastCircle circle : Circle) : Bool :=
  let xOffset : Int := (circle.gridX : Int) - (lastCircle.gridX : Int)
  let yOffset : Int := (circle.gridY : Int) - (lastCircle.gridY : Int)
  let isValidAdjacentCircle :=
    if lastCircle.gridY % 2 = 0 then
      RIGHT_LEANING.any (fun coord => coord.1 == xOffset && coord.2 == yOffset)
    else
      LEFT_LEANING.any (fun coord => coord.1 == xOffset && coord.2 == yOffset)
  isValidAdjacentCircle && lastCircle.color == circle.color

/-- isValidNextCircle: an empty chain accepts any circle; otherwise the
candidate must be offset-adjacent to the chain's last circle (offset list
chosen by the last circle's gridY parity) and share its color. -/
def isValidNextCircle (RIGHT_LEANING LEFT_LEANING : List (Int × Int))
    (selectedCircles : List Circle) (circle : Circle) : Bool :=
  match selectedCircles.getLast? with
  | none => true
  | some lastCircle =>
    let xOffset : Int := (circle.gridX : Int) - (lastCircle.gridX : Int)
    let yOffset : Int := (circle.gridY : Int) - (lastCircle.gridY : Int)
    let isValidAdjacentCircle :=
      if lastCircle.gridY % 2 = 0 then
        RIGHT_LEANING.any (fun coord => coord.1 == xOffset && coord.2 == yOffset)
      else
        LEFT_LEANING.any (fun coord => coord.1 == xOffset && coord.2 == yOffset)
    isValidAdjacentCircle && lastCircle.color == circle.color

/-- JS array indexing: a negative or out-of-range index yields undefined
(here none). -/
def jsGet (l : List Circle) (i : Int) : Option Circle :=
  if i < 0 then none else l.get? i.toNat

/-- isBackTracking: true when the touched circle is the second-to-last circle
of the chain (JS index length - 2; undefined for chains shorter than 2, so
those never backtrack). -/
def isBackTracking (selectedCircles : List Circle) (circle : Circle) : Bool :=
  if selectedCircles.length ≤ 0 then false
  else jsGet selectedCircles ((selectedCircles.length : Int) - 2) == some circle

/-- addCircleToSelectedChain: push the circle and raise the preview points by
one (pulse/graphics effects are presentation-only). -/
def addCircleToSelectedChain (s : SceneState) (circle : Circle) : SceneState :=
  { s with selectedCircles := s.selectedCircles ++ [circle],
           currentPointsToAdd := s.currentPointsToAdd + 1 }

/-- removeCircleFromChain: clear the loop flag, pop the chain's tail and lower
the preview points by one. -/
def removeCircleFromChain (s : SceneState) : SceneState :=
  { s with loopCreated := false,
           selectedCircles := s.selectedCircles.dropLast,
           currentPointsToAdd := s.currentPointsToAdd - 1 }

/-- setAllSimilarColoredCirclesToSelectedCircles: collect every circle on the
board whose color matches. -/
def setAllSimilarColoredCirclesToSelectedCircles (s : SceneState) (color : Nat) : SceneState :=
  { s with allSimilarColorCircles := s.board.flatten.filter (fun c => c.color == color) }

/-- handleLoopCreated: set the loop flag, capture the board-wide same-color
set, and append the loop-closing circle to the chain once more. -/
def handleLoopCreated (s : SceneState) (circle : Circle) : SceneState :=
  addCircleToSelectedChain
    (setAllSimilarColoredCirclesToSelectedCircles { s with loopCreated := true } circle.color)
    circle

/-- The overlap-callback body of addOnCollisionHandler: on touching a circle,
when it is a valid next circle either backtrack-pop, append, or detect a loop;
otherwise do nothing. -/
def candidateTouched (RIGHT_LEANING LEFT_LEANING : List (Int × Int))
    (s : SceneState) (circle : Circle) : SceneState :=
  if isValidNextCircle RIGHT_LEANING LEFT_LEANING s.selectedCircles circle then
    if isBackTracking s.selectedCircles circle then
      removeCircleFromChain s
    else if !(s.selectedCircles.contains circle) && !s.loopCreated then
      addCircleToSelectedChain s circle
    else if s.selectedCircles.contains circle && !s.loopCreated then
      handleLoopCreated s circle
    else s
  else s

/-- The destruction of the cleared circles by the shrink tweens: every board
circle contained in the clear set has its active flag set to false. -/
def markCleared (clearSet : List Circle) (board : List (List Circle)) : List (List Circle) :=
  board.map (fun col => col.map (fun c =>
    if clearSet.contains c then { c with active := false } else c))

/-- The columnsToAdjust accumulation of clearAllSelectedCircles: the distinct
gridX values of the cleared circles in first-occurrence order. -/
def columnsToAdjustOf (circles : List Circle) : List Nat :=
  circles.foldl (fun acc c => if acc.contains c.gridX then acc else acc ++ [c.gridX]) []

/-- updateBoard: replace each affected column by its compacted contents; each
addNewCirclesToColumn call ends by clearing the refill flag. -/
def updateBoard (GRID_HEIGHT : Nat) (src : CircleSource) (columnsToAdjust : List Nat)
    (s : SceneState) : SceneState :=
  columnsToAdjust.foldl (fun st column =>
    { st with
        board := st.board.set column
          (updateColumn GRID_HEIGHT src column ((st.board.get? column).getD [])),
        boardRefillHappening := false }) s

/-- clearAllSelectedCircles: substitute the board-wide same-color set for the
chain when a loop was created, reset the preview points, award the (possibly
doubled) points for the clear set, mark the cleared circles dead, compact the
affected columns and empty the chain. -/
def clearAllSelectedCircles (GRID_HEIGHT : Nat) (src : CircleSource) (s : SceneState) :
    SceneState :=
  let s1 := if s.loopCreated then { s with selectedCircles := s.allSimilarColorCircles } else s
  let s2 := { s1 with boardRefillHappening := true, loopCreated := false,
                      currentPointsToAdd := 0 }
  let pointsToAdd := if s2.selectedCircles.length ≥ 10
    then s2.selectedCircles.length * 2
    else s2.selectedCircles.length
  let s3 := { s2 with score := s2.score + (pointsToAdd : Int) }
  let s4 := { s3 with board := markCleared s2.selectedCircles s3.board }
  let s5 := updateBoard GRID_HEIGHT src (columnsToAdjustOf s2.selectedCircles) s4
  { s5 with selectedCircles := [] }

/-- The pointerup handler body while the game runs: a single-circle chain is
discarded; a longer chain is committed via clearAllSelectedCircles. -/
def onPointerUp (GRID_HEIGHT : Nat) (src : CircleSource) (s : SceneState) : SceneState :=
  if s.gameIsRunning then
    let s1 := if s.selectedCircles.length = 1 then { s with selectedCircles := [] } else s
    if s1.selectedCircles.length > 1 then clearAllSelectedCircles GRID_HEIGHT src s1 else s1
  else s

/-- initializeGameVariables: the per-round state reset (high score excluded). -/
def initializeGameVariables (s : SceneState) : SceneState :=
  { s with selectedCircles := [], score := 0, currentPointsToAdd := 0,
           loopCreated := false, boardRefillHappening := false }

/-- clearBoard: destroy every circle, drop the board and empty the chain. -/
def clearBoard (s : SceneState) : SceneState :=
  { s with board := [], selectedCircles := [] }

/-- clearPreviousGame: clearBoard plus graphics/text clearing (presentation). -/
def clearPreviousGame (s : SceneState) : SceneState :=
  clearBoard s

/-- onCountdownComplete: stop the game, clear the previous game's board and
chain, raise the high score if beaten, and present the end-of-round menu. -/
def onCountdownComplete (s : SceneState) : SceneState :=
  let s1 := clearPreviousGame { s with gameIsRunning := false }
  let s2 := if s1.score > s1.highScore then { s1 with highScore := s1.score } else s1
  { s2 with menuShown := true }

/-- createInitialBoard: GRID_WIDTH columns of GRID_HEIGHT fresh circles. -/
def createInitialBoard (GRID_WIDTH GRID_HEIGHT : Nat) (src : CircleSource) :
    List (List Circle) :=
  (List.range GRID_WIDTH).map (fun x =>
    (List.range GRID_HEIGHT).map (fun y =>
      createNewCircle (src.colorAt x y) (src.idAt x y) x y))

/-- startGame: reset the round variables, start the timer and build a fresh
board; reached from the menu's start button, which tears the menu down. -/
def startGame (GRID_WIDTH GRID_HEIGHT : Nat) (src : CircleSource) (s : SceneState) :
    SceneState :=
  let s1 := initializeGameVariables s
  let s2 := { s1 with gameIsRunning := true }
  { s2 with board := createInitialBoard GRID_WIDTH GRID_HEIGHT src, menuShown := false }

/-- The state initialization of the scene's create method: the high score is
set to zero exactly once here, then the per-round variables are initialized
and the start menu is shown. -/
def createScene (s : SceneState) : SceneState :=
  { initializeGameVariables { s with highScore := 0 } with menuShown := true }

/-- Modelled from the spec (Score Tracker, missing from the embedded sources
only as a named function; the code computes it inline in
clearAllSelectedCircles): commit(chainLength) = chainLength if chainLength
< 10 else chainLength * 2. -/
def commit (chainLength : Nat) : Nat :=
  if chainLength < 10 then chainLength else chainLength * 2

/-- The effective clear set of a commit: the board-wide same-color set when a
loop was created, the literal chain otherwise. -/
def effectiveClearSet (s : SceneState) : List Circle :=
  if s.loopCreated then s.allSimilarColorCircles else s.selectedCircles

/-- Pairwise chain validity: every two consecutive circles satisfy the
adjacency-plus-color rule keyed by the earlier circle's row parity. -/
def chainOk (RIGHT_LEANING LEFT_LEANING : List (Int × Int)) : List Circle → Bool
  | a :: b :: rest => validPair RIGHT_LEANING LEFT_LEANING a b
      && chainOk RIGHT_LEANING LEFT_LEANING (b :: rest)
  | _ => true

/-- Fixed sample circle source used by concrete witnesses: in column x the new
circle for slot g gets color g and identity 90 + g. -/
def srcZero : CircleSource := { colorAt := fun _ g => g, idAt := fun _ g => 90 + g }

/-- A live sample circle at row i. -/
def sampleLive (i : Nat) : Circle := { color := 2, gridX := 0, gridY := i, active := true, id := 60 + i }

/-- A dead (cleared) sample circle at row i. -/
def sampleDead (i : Nat) : Circle := { color := 1, gridX := 0, gridY := i, active := false, id := 50 + i }

/-- Claim C1: after compaction of any column of board height, the column again
holds exactly GRID_HEIGHT circles, all of them live, and the surviving count
plus the spawned count equals the height. -/
theorem compaction_fills_column (GRID_HEIGHT : Nat) (src : CircleSource) (column : Nat)
    (col : List Circle) (hcol : col.length = GRID_HEIGHT) :
    (updateColumn GRID_HEIGHT src column col).length = GRID_HEIGHT
    ∧ (∀ c ∈ updateColumn GRID_HEIGHT src column col, c.active = true)
    ∧ (columnScan col).2.length + (GRID_HEIGHT - (columnScan col).2.length) = GRID_HEIGHT := by
  have hle : (columnScan col).2.length ≤ GRID_HEIGHT := by
    rw [columnScan_length, ← hcol]
    exact List.length_filter_le _ _
  refine ⟨?_, ?_, ?_⟩
  · simp only [updateColumn, addNewCirclesToColumn, List.length_append, List.length_map,
      List.length_range, List.length_reverse]
    omega
  · intro c hc
    simp only [updateColumn, addNewCirclesToColumn, List.mem_append, List.mem_map,
      List.mem_reverse, List.mem_range] at hc
    rcases hc with ⟨g, _, hg⟩ | hc
    · rw [← hg]; rfl
    · rw [columnScan_snd, List.mem_reverse] at hc
      exact specFallenSurvivors_all_active col c hc
  · omega

/-- Witness for claim C1 on a concrete height-3 column with one dead circle. -/
theorem compaction_fills_column_witness :
    [sampleLive 0, sampleDead 1, sampleLive 2].length = 3
    ∧ ((updateColumn 3 srcZero 0 [sampleLive 0, sampleDead 1, sampleLive 2]).length = 3
      ∧ (∀ c ∈ updateColumn 3 srcZero 0 [sampleLive 0, sampleDead 1, sampleLive 2], c.active = true)
      ∧ (columnScan [sampleLive 0, sampleDead 1, sampleLive 2]).2.length
        + (3 - (columnScan [sampleLive 0, sampleDead 1, sampleLive 2]).2.length) = 3) :=
  ⟨by decide, compaction_fills_column 3 srcZero 0 [sampleLive 0, sampleDead 1, sampleLive 2] (by decide)⟩

/-- The height-5 scenario column of claim C2: circles at rows 0..4, the ones at
rows 1 and 3 cleared (dead). -/
def scenarioCircle (i : Nat) (alive : Bool) : Circle :=
  { color := 7, gridX := 0, gridY := i, active := alive, id := 20 + i }

/-- The scenario column [row0 live, row1 dead, row2 live, row3 dead, row4 live]. -/
def scenarioColumn : List Circle :=
  [scenarioCircle 0 true, scenarioCircle 1 false, scenarioCircle 2 true,
   scenarioCircle 3 false, scenarioCircle 4 true]

/-- Claim C2: compaction rebuilds a column as freshly spawned circles on top
followed by exactly the surviving circles in their original top-to-bottom
order, each moved down by the number of dead slots originally below it
(`specFallenSurvivors`); survivor identity, color and column are untouched.
On the height-5 scenario with dead rows 1 and 3 the survivors land in the
bottom three slots (rows 2, 3, 4) under two fresh circles. -/
theorem compaction_ordering (GRID_HEIGHT : Nat) (src : CircleSource) (column : Nat)
    (col : List Circle) :
    (updateColumn GRID_HEIGHT src column col =
      ((List.range (GRID_HEIGHT - (col.filter (fun c => c.active)).length)).map
        (fun gridY =>
          createNewCircle (src.colorAt column gridY) (src.idAt column gridY) column gridY))
      ++ specFallenSurvivors col)
    ∧ ((specFallenSurvivors col).map (fun c => (c.id, c.color, c.gridX))
        = (col.filter (fun c => c.active)).map (fun c => (c.id, c.color, c.gridX)))
    ∧ updateColumn 5 srcZero 0 scenarioColumn =
      [ { color := 0, gridX := 0, gridY := 0, active := true, id := 90 },
        { color := 1, gridX := 0, gridY := 1, active := true, id := 91 },
        { color := 7, gridX := 0, gridY := 2, active := true, id := 20 },
        { color := 7, gridX := 0, gridY := 3, active := true, id := 22 },
        { color := 7, gridX := 0, gridY := 4, active := true, id := 24 } ] := by
  refine ⟨?_, specFallenSurvivors_map_eq col, by decide⟩
  simp only [updateColumn, addNewCirclesToColumn, columnScan_snd, List.reverse_reverse,
    List.length_reverse, specFallenSurvivors_length]

theorem isValidNextCircle_eq (RL LL : List (Int × Int)) (l : List Circle) (c : Circle) :
    isValidNextCircle RL LL l c =
      match l.getLast? with
      | none => true
      | some a => validPair RL LL a c := by
  cases h : l.getLast? <;> simp [isValidNextCircle, validPair, h]

theorem chainOk_dropLast (RL LL : List (Int × Int)) :
    ∀ l : List Circle, chainOk RL LL l = true → chainOk RL LL l.dropLast = true
  | [], _ => rfl
  | [_], _ => rfl
  | [_, _], _ => rfl
  | a :: b :: d :: rest, h => by
    simp only [chainOk, Bool.and_eq_true] at h
    have hrest : chainOk RL LL (b :: d :: rest) = true := by
      simp only [chainOk, Bool.and_eq_true]
      exact h.2
    have ih := chainOk_dropLast RL LL (b :: d :: rest) hrest
    simp only [List.dropLast_cons₂] at ih ⊢
    simp only [chainOk, Bool.and_eq_true]
    exact ⟨h.1, ih⟩

theorem chainOk_append (RL LL : List (Int × Int)) :
    ∀ (l : List Circle) (c : Circle), chainOk RL LL l = true →
      isValidNextCircle RL LL l c = true → chainOk RL LL (l ++ [c]) = true
  | [], c, _, _ => rfl
  | [a], c, _, hv => by
    have hp : validPair RL LL a c = true := by
      rw [isValidNextCircle_eq] at hv
      simpa using hv
    simp [chainOk, hp]
  | a :: b :: rest, c, h, hv => by
    simp only [chainOk, Bool.and_eq_true] at h
    have hv2 : isValidNextCircle RL LL (b :: rest) c = true := by
      rw [isValidNextCircle_eq] at hv ⊢
      rw [List.getLast?_cons_cons] at hv
      exact hv
    have ih := chainOk_append RL LL (b :: rest) c h.2 hv2
    simp only [List.cons_append] at ih ⊢
    simp only [chainOk, Bool.and_eq_true]
    exact ⟨h.1, ih⟩

theorem candidateTouched_selected (RL LL : List (Int × Int)) (s : SceneState) (c : Circle) :
    (candidateTouched RL LL s c).selectedCircles = s.selectedCircles
    ∨ (candidateTouched RL LL s c).selectedCircles = s.selectedCircles.dropLast
    ∨ ((candidateTouched RL LL s c).selectedCircles = s.selectedCircles ++ [c]
        ∧ isValidNextCircle RL LL s.selectedCircles c = true) := by
  unfold candidateTouched
  by_cases hv : isValidNextCircle RL LL s.selectedCircles c = true
  · rw [if_pos hv]
    by_cases hb : isBackTracking s.selectedCircles c = true
    · rw [if_pos hb]
      right; left; rfl
    · rw [if_neg hb]
      by_cases h2 : (!(s.selectedCircles.contains c) && !s.loopCreated) = true
      · rw [if_pos h2]
        right; right; exact ⟨rfl, hv⟩
      · rw [if_neg h2]
        by_cases h3 : (s.selectedCircles.contains c && !s.loopCreated) = true
        · rw [if_pos h3]
          right; right; exact ⟨rfl, hv⟩
        · rw [if_neg h3]
          left; rfl
  · rw [if_neg hv]
    left; rfl

theorem candidateTouched_chainOk (RL LL : List (Int × Int)) (s : SceneState) (c : Circle)
    (h : chainOk RL LL s.selectedCircles = true) :
    chainOk RL LL (candidateTouched RL LL s c).selectedCircles = true := by
  rcases candidateTouched_selected RL LL s c with heq | heq | ⟨heq, hv⟩
  · rw [heq]; exact h
  · rw [heq]; exact chainOk_dropLast RL LL _ h
  · rw [heq]; exact chainOk_append RL LL _ _ h hv

theorem foldTouches_chainOk (RL LL : List (Int × Int)) (events : List Circle) :
    ∀ s : SceneState, chainOk RL LL s.selectedCircles = true →
      chainOk RL LL ((events.foldl (candidateTouched RL LL) s).selectedCircles) = true := by
  induction events with
  | nil => intro s h; exact h
  | cons e rest ih =>
    intro s h
    exact ih (candidateTouched RL LL s e) (candidateTouched_chainOk RL LL s e h)

/-- Claim C3: from an empty selection, any sequence of touch events leaves a
chain in which every two consecutive circles are adjacent under the offset
list picked by the earlier circle's row parity and share a color; and from
the empty selection the first touched circle is accepted unconditionally. -/
theorem chain_invariant (RL LL : List (Int × Int)) (events : List Circle) (s0 : SceneState)
    (h1 : s0.selectedCircles = []) (h2 : s0.loopCreated = false) :
    chainOk RL LL ((events.foldl (candidateTouched RL LL) s0).selectedCircles) = true
    ∧ ∀ c : Circle, (candidateTouched RL LL s0 c).selectedCircles = [c] := by
  constructor
  · apply foldTouches_chainOk
    rw [h1]; rfl
  · intro c
    simp [candidateTouched, h1, h2, isValidNextCircle, isBackTracking,
      addCircleToSelectedChain]

/-- Concrete right-leaning offset list used by witnesses: the single offset
(-1, 0). -/
def RL0 : List (Int × Int) := [(-1, 0)]

/-- Concrete left-leaning offset list used by witnesses: empty. -/
def LL0 : List (Int × Int) := []

/-- A scene state at round start: empty board and chain, no loop, zero
scores, game running. -/
def emptyScene : SceneState :=
  { board := [], selectedCircles := [], loopCreated := false,
    allSimilarColorCircles := [], currentPointsToAdd := 0, score := 0,
    highScore := 0, gameIsRunning := true, boardRefillHappening := false,
    menuShown := false }

/-- Witness for claim C3 on a concrete two-touch event sequence. -/
theorem chain_invariant_witness :
    emptyScene.selectedCircles = [] ∧ emptyScene.loopCreated = false
    ∧ (chainOk RL0 LL0
        (([sampleLive 0, sampleLive 1].foldl (candidateTouched RL0 LL0) emptyScene).selectedCircles)
          = true
      ∧ ∀ c : Circle, (candidateTouched RL0 LL0 emptyScene c).selectedCircles = [c]) :=
  ⟨rfl, rfl, chain_invariant RL0 LL0 [sampleLive 0, sampleLive 1] emptyScene rfl rfl⟩

/-- Concrete circle at (0,0) with color 3. -/
def circleA : Circle := { color := 3, gridX := 0, gridY := 0, active := true, id := 1 }

/-- Concrete circle at (1,0) with color 3; circleA is RL0-adjacent to it. -/
def circleB : Circle := { color := 3, gridX := 1, gridY := 0, active := true, id := 2 }

/-- Concrete circle at (5,0) with color 3. -/
def circleC : Circle := { color := 3, gridX := 5, gridY := 0, active := true, id := 3 }

/-- Concrete circle at (1,1) with color 4. -/
def circleD : Circle := { color := 4, gridX := 1, gridY := 1, active := true, id := 4 }

/-- A scene in looped state whose chain is [circleA, circleB]: touching
circleA is a backtrack touch. -/
def loopedScene : SceneState :=
  { emptyScene with selectedCircles := [circleA, circleB], loopCreated := true,
                    allSimilarColorCircles := [circleA, circleB] }

/-- Counterexample to claim C4: in a looped state, touching the second-to-last
circle of a length-2 chain still pops the tail (the source's backtrack branch
carries no looped-state guard), so the backtrack pop does not apply only when
the selector is outside the looped state. -/
theorem backtrack_looped_counterexample :
    loopedScene.loopCreated = true
    ∧ isBackTracking loopedScene.selectedCircles circleA = true
    ∧ loopedScene.selectedCircles.length = 2
    ∧ (candidateTouched RL0 LL0 loopedScene circleA).selectedCircles = [circleA] := by
  decide

/-- Claim C4 (amended): whenever the touched circle passes the validity check
and is the second-to-last circle of the chain, the selector pops the tail —
regardless of the looped state, also clearing the looped flag — shortening the
chain by exactly one and restoring the exact chain that existed before the
tail was appended. -/
theorem backtrack_pops_tail (RL LL : List (Int × Int)) (s : SceneState) (c : Circle)
    (hv : isValidNextCircle RL LL s.selectedCircles c = true)
    (hb : isBackTracking s.selectedCircles c = true) :
    (candidateTouched RL LL s c).selectedCircles = s.selectedCircles.dropLast
    ∧ (candidateTouched RL LL s c).selectedCircles.length + 1 = s.selectedCircles.length
    ∧ (candidateTouched RL LL s c).loopCreated = false
    ∧ ∀ (l : List Circle) (t : Circle), s.selectedCircles = l ++ [t] →
        (candidateTouched RL LL s c).selectedCircles = l := by
  have hres : candidateTouched RL LL s c = removeCircleFromChain s := by
    unfold candidateTouched
    rw [if_pos hv, if_pos hb]
  have hlen : 2 ≤ s.selectedCircles.length := by
    unfold isBackTracking at hb
    by_cases h0 : s.selectedCircles.length ≤ 0
    · rw [if_pos h0] at hb
      cases hb
    · rw [if_neg h0] at hb
      by_contra hcon
      have h1 : s.selectedCircles.length = 1 := by omega
      rw [h1] at hb
      simp [jsGet] at hb
  refine ⟨?_, ?_, ?_, ?_⟩
  · rw [hres]; rfl
  · rw [hres]
    show s.selectedCircles.dropLast.length + 1 = s.selectedCircles.length
    rw [List.length_dropLast]
    omega
  · rw [hres]; rfl
  · intro l t hlt
    rw [hres]
    show s.selectedCircles.dropLast = l
    rw [hlt, List.dropLast_concat]

/-- Witness for the amended claim C4 on the concrete looped scene. -/
theorem backtrack_pops_tail_witness :
    isValidNextCircle RL0 LL0 loopedScene.selectedCircles circleA = true
    ∧ isBackTracking loopedScene.selectedCircles circleA = true
    ∧ (candidateTouched RL0 LL0 loopedScene circleA).selectedCircles
        = loopedScene.selectedCircles.dropLast :=
  ⟨by decide, by decide,
    (backtrack_pops_tail RL0 LL0 loopedScene circleA (by decide) (by decide)).1⟩

/-- A scene whose chain [circleA, circleC, circleB] can be closed into a loop
by touching circleA again; the board holds three color-3 circles and one
color-4 circle. -/
def loopScene : SceneState :=
  { emptyScene with selectedCircles := [circleA, circleC, circleB],
                    board := [[circleA, circleB], [circleC, circleD]] }

/-- Claim C5: a valid touch on a circle already in the chain that is neither
the backtrack circle nor made while already looped sets the looped flag,
captures as clear set every board circle of that color (board-wide), and
appends the circle to the chain once more. -/
theorem loop_detection_effect (RL LL : List (Int × Int)) (s : SceneState) (c : Circle)
    (hv : isValidNextCircle RL LL s.selectedCircles c = true)
    (hmem : s.selectedCircles.contains c = true)
    (hb : isBackTracking s.selectedCircles c = false)
    (hl : s.loopCreated = false) :
    (candidateTouched RL LL s c).loopCreated = true
    ∧ (candidateTouched RL LL s c).allSimilarColorCircles
        = s.board.flatten.filter (fun x => x.color == c.color)
    ∧ (candidateTouched RL LL s c).selectedCircles = s.selectedCircles ++ [c] := by
  have hmem' : c ∈ s.selectedCircles := by simpa using hmem
  have hres : candidateTouched RL LL s c = handleLoopCreated s c := by
    unfold candidateTouched
    rw [if_pos hv, if_neg (by simp [hb]), if_neg (by simp [hmem']),
      if_pos (by simp [hmem', hl])]
  rw [hres]
  exact ⟨rfl, rfl, rfl⟩

/-- Witness for claim C5 on the concrete loop-closing scene. -/
theorem loop_detection_effect_witness :
    isValidNextCircle RL0 LL0 loopScene.selectedCircles circleA = true
    ∧ loopScene.selectedCircles.contains circleA = true
    ∧ isBackTracking loopScene.selectedCircles circleA = false
    ∧ loopScene.loopCreated = false
    ∧ (candidateTouched RL0 LL0 loopScene circleA).allSimilarColorCircles
        = loopScene.board.flatten.filter (fun x => x.color == circleA.color) :=
  ⟨by decide, by decide, by decide, rfl,
    (loop_detection_effect RL0 LL0 loopScene circleA (by decide) (by decide)
      (by decide) rfl).2.1⟩

theorem updateBoard_preserves (GRID_HEIGHT : Nat) (src : CircleSource) (cols : List Nat) :
    ∀ s : SceneState,
      (updateBoard GRID_HEIGHT src cols s).score = s.score
      ∧ (updateBoard GRID_HEIGHT src cols s).selectedCircles = s.selectedCircles
      ∧ (updateBoard GRID_HEIGHT src cols s).currentPointsToAdd = s.currentPointsToAdd
      ∧ (updateBoard GRID_HEIGHT src cols s).loopCreated = s.loopCreated
      ∧ (updateBoard GRID_HEIGHT src cols s).highScore = s.highScore := by
  induction cols with
  | nil => intro s; exact ⟨rfl, rfl, rfl, rfl, rfl⟩
  | cons a rest ih =>
    intro s
    simp only [updateBoard, List.foldl_cons] at ih ⊢
    exact ih _

theorem commit_eq_inline (n : Nat) : (if n ≥ 10 then n * 2 else n) = commit n := by
  unfold commit
  by_cases h : n < 10
  · rw [if_neg (by omega), if_pos h]
  · rw [if_pos (by omega), if_neg h]

theorem clearAll_selected (GRID_HEIGHT : Nat) (src : CircleSource) (s : SceneState) :
    (clearAllSelectedCircles GRID_HEIGHT src s).selectedCircles = [] := rfl

theorem clearAll_score (GRID_HEIGHT : Nat) (src : CircleSource) (s : SceneState) :
    (clearAllSelectedCircles GRID_HEIGHT src s).score
      = s.score + (commit (effectiveClearSet s).length : Int) := by
  cases hl : s.loopCreated with
  | true =>
    simp only [clearAllSelectedCircles, effectiveClearSet, hl, if_true]
    rw [(updateBoard_preserves GRID_HEIGHT src _ _).1]
    simp [commit_eq_inline]
  | false =>
    simp only [clearAllSelectedCircles, effectiveClearSet, hl, Bool.false_eq_true, if_false]
    rw [(updateBoard_preserves GRID_HEIGHT src _ _).1]
    simp [commit_eq_inline]

theorem clearAll_points (GRID_HEIGHT : Nat) (src : CircleSource) (s : SceneState) :
    (clearAllSelectedCircles GRID_HEIGHT src s).currentPointsToAdd = 0 := by
  cases hl : s.loopCreated with
  | true =>
    simp only [clearAllSelectedCircles, hl, if_true]
    rw [(updateBoard_preserves GRID_HEIGHT src _ _).2.2.1]
  | false =>
    simp only [clearAllSelectedCircles, hl, Bool.false_eq_true, if_false]
    rw [(updateBoard_preserves GRID_HEIGHT src _ _).2.2.1]

/-- Claim C6: committing a (non-looped) chain awards the chain's length when
it is below 10 and twice the length otherwise — the code's inline scoring in
clearAllSelectedCircles agrees with the spec's commit function — and in
particular commit 9 = 9, commit 10 = 20 and commit 1 = 1. -/
theorem commit_scoring (GRID_HEIGHT : Nat) (src : CircleSource) (s : SceneState)
    (hl : s.loopCreated = false) :
    (clearAllSelectedCircles GRID_HEIGHT src s).score
      = s.score + (commit s.selectedCircles.length : Int)
    ∧ commit 9 = 9 ∧ commit 10 = 20 ∧ commit 1 = 1 := by
  refine ⟨?_, by decide, by decide, by decide⟩
  rw [clearAll_score GRID_HEIGHT src s]
  simp [effectiveClearSet, hl]

/-- A scene holding a committed chain of nine color-3 circles. -/
def scene9 : SceneState :=
  { emptyScene with selectedCircles := List.replicate 9 circleA, board := [[circleA]] }

/-- Witness for claim C6 on the concrete nine-circle chain. -/
theorem commit_scoring_witness :
    scene9.loopCreated = false
    ∧ (clearAllSelectedCircles 3 srcZero scene9).score
        = scene9.score + (commit scene9.selectedCircles.length : Int) :=
  ⟨rfl, (commit_scoring 3 srcZero scene9 rfl).1⟩

theorem onCountdownComplete_fields (s : SceneState) :
    (onCountdownComplete s).gameIsRunning = false
    ∧ (onCountdownComplete s).board = []
    ∧ (onCountdownComplete s).selectedCircles = []
    ∧ (onCountdownComplete s).highScore = max s.highScore s.score
    ∧ (onCountdownComplete s).menuShown = true := by
  simp only [onCountdownComplete, clearPreviousGame, clearBoard]
  split_ifs with h
  · exact ⟨rfl, rfl, rfl, (max_eq_right (le_of_lt h)).symm, by trivial⟩
  · exact ⟨rfl, rfl, rfl, (max_eq_left (le_of_not_lt h)).symm, by trivial⟩

/-- Claim C7: on pointer release during a running round, a chain of at most
one circle is discarded with no score or board change; a longer chain is
committed through clearAllSelectedCircles — the points are added, the cleared
columns are compacted — and the chain resets to empty; the chain also resets
to empty on round termination. -/
theorem pointerup_release (GRID_HEIGHT : Nat) (src : CircleSource) (s : SceneState)
    (hrun : s.gameIsRunning = true) :
    (s.selectedCircles.length ≤ 1 →
        (onPointerUp GRID_HEIGHT src s).selectedCircles = []
        ∧ (onPointerUp GRID_HEIGHT src s).score = s.score
        ∧ (onPointerUp GRID_HEIGHT src s).board = s.board)
    ∧ (s.selectedCircles.length > 1 →
        onPointerUp GRID_HEIGHT src s = clearAllSelectedCircles GRID_HEIGHT src s
        ∧ (onPointerUp GRID_HEIGHT src s).selectedCircles = []
        ∧ (onPointerUp GRID_HEIGHT src s).score
            = s.score + (commit (effectiveClearSet s).length : Int))
    ∧ (onCountdownComplete s).selectedCircles = [] := by
  refine ⟨?_, ?_, (onCountdownComplete_fields s).2.2.1⟩
  · intro hle
    by_cases h1 : s.selectedCircles.length = 1
    · have hres : onPointerUp GRID_HEIGHT src s = { s with selectedCircles := [] } := by
        unfold onPointerUp
        rw [if_pos hrun]
        dsimp only
        rw [if_pos h1, if_neg (by simp)]
      rw [hres]
      exact ⟨rfl, rfl, rfl⟩
    · have h0 : s.selectedCircles.length = 0 := by omega
      have hres : onPointerUp GRID_HEIGHT src s = s := by
        unfold onPointerUp
        rw [if_pos hrun]
        dsimp only
        rw [if_neg h1, if_neg (by omega)]
      rw [hres]
      exact ⟨List.eq_nil_of_length_eq_zero h0, rfl, rfl⟩
  · intro hgt
    have h1 : ¬s.selectedCircles.length = 1 := by omega
    have hres : onPointerUp GRID_HEIGHT src s = clearAllSelectedCircles GRID_HEIGHT src s := by
      unfold onPointerUp
      rw [if_pos hrun]
      dsimp only
      rw [if_neg h1, if_pos hgt]
    rw [hres]
    exact ⟨rfl, clearAll_selected GRID_HEIGHT src s, clearAll_score GRID_HEIGHT src s⟩

/-- A running scene holding a committed chain of two circles. -/
def scene2 : SceneState :=
  { emptyScene with selectedCircles := [circleA, circleB], board := [[circleA, circleB]] }

/-- Witness for claim C7 on the concrete two-circle chain. -/
theorem pointerup_release_witness :
    scene2.gameIsRunning = true
    ∧ scene2.selectedCircles.length > 1
    ∧ (onPointerUp 2 srcZero scene2).selectedCircles = [] :=
  ⟨rfl, by decide, ((pointerup_release 2 srcZero scene2 rfl).2.1 (by decide)).2.1⟩

/-- Claim C8: when the countdown expires the round stops, the high score
becomes the maximum of itself and the final score, the board and chain are
cleared and the end-of-round menu is shown; the high score is initialized
only at scene creation and is untouched by startGame, so it persists across
rounds. -/
theorem countdown_highscore_persistence (GRID_WIDTH GRID_HEIGHT : Nat) (src : CircleSource)
    (s t : SceneState) :
    (onCountdownComplete s).gameIsRunning = false
    ∧ (onCountdownComplete s).highScore = max s.highScore s.score
    ∧ (onCountdownComplete s).board = []
    ∧ (onCountdownComplete s).selectedCircles = []
    ∧ (onCountdownComplete s).menuShown = true
    ∧ (startGame GRID_WIDTH GRID_HEIGHT src t).highScore = t.highScore
    ∧ (createScene t).highScore = 0 := by
  have h := onCountdownComplete_fields s
  exact ⟨h.1, h.2.2.2.1, h.2.1, h.2.2.1, h.2.2.2.2, rfl, rfl⟩

/-- The loop-closing scene after loop detection: looped, with the similar-color
set holding the three color-3 circles of the board. -/
def committedLoopScene : SceneState :=
  { loopScene with loopCreated := true,
                   allSimilarColorCircles := [circleA, circleB, circleC] }

/-- Claim C9: committing while looped scores the board-wide same-color set
captured at loop detection in place of the literal chain: the awarded points
equal the count of same-colored circles on the board (doubled iff at least
10), and the chain contents — including the duplicate append of the
loop-closing circle — never affect the awarded points. -/
theorem looped_commit_score (GRID_HEIGHT : Nat) (src : CircleSource) (s : SceneState)
    (color : Nat) (hl : s.loopCreated = true)
    (hsim : s.allSimilarColorCircles = s.board.flatten.filter (fun x => x.color == color)) :
    (clearAllSelectedCircles GRID_HEIGHT src s).score
      = s.score + (commit ((s.board.flatten.filter (fun x => x.color == color)).length) : Int)
    ∧ ∀ l : List Circle,
        (clearAllSelectedCircles GRID_HEIGHT src { s with selectedCircles := l }).score
          = (clearAllSelectedCircles GRID_HEIGHT src s).score := by
  constructor
  · rw [clearAll_score]
    simp [effectiveClearSet, hl, hsim]
  · intro l
    rw [clearAll_score, clearAll_score]
    simp [effectiveClearSet, hl]

/-- Witness for claim C9 on the concrete loop-committed scene. -/
theorem looped_commit_score_witness :
    committedLoopScene.loopCreated = true
    ∧ committedLoopScene.allSimilarColorCircles
        = committedLoopScene.board.flatten.filter (fun x => x.color == 3)
    ∧ (clearAllSelectedCircles 2 srcZero committedLoopScene).score
        = committedLoopScene.score
          + (commit ((committedLoopScene.board.flatten.filter (fun x => x.color == 3)).length) : Int) :=
  ⟨rfl, by decide,
    (looped_commit_score 2 srcZero committedLoopScene 3 rfl (by decide)).1⟩

/-- Claim C10: releasing a gesture whose chain holds exactly one circle only
empties the chain — every other field, including the preview counter
currentPointsToAdd, is unchanged — while the preview counter is zeroed when a
longer chain is committed and when a new round initializes the game
variables. -/
theorem single_release_frame (GRID_HEIGHT : Nat) (src : CircleSource) (s : SceneState)
    (hrun : s.gameIsRunning = true) :
    (s.selectedCircles.length = 1 →
        onPointerUp GRID_HEIGHT src s = { s with selectedCircles := [] })
    ∧ (s.selectedCircles.length > 1 →
        (onPointerUp GRID_HEIGHT src s).currentPointsToAdd = 0)
    ∧ (initializeGameVariables s).currentPointsToAdd = 0 := by
  refine ⟨?_, ?_, rfl⟩
  · intro h1
    unfold onPointerUp
    rw [if_pos hrun]
    dsimp only
    rw [if_pos h1, if_neg (by simp)]
  · intro hgt
    have h1 : ¬s.selectedCircles.length = 1 := by omega
    have hres : onPointerUp GRID_HEIGHT src s = clearAllSelectedCircles GRID_HEIGHT src s := by
      unfold onPointerUp
      rw [if_pos hrun]
      dsimp only
      rw [if_neg h1, if_pos hgt]
    rw [hres]
    exact clearAll_points GRID_HEIGHT src s

/-- A running scene with a single selected circle and a pending preview point. -/
def oneScene : SceneState :=
  { emptyScene with selectedCircles := [circleA], currentPointsToAdd := 1,
                    board := [[circleA]] }

/-- Witness for claim C10 on the concrete single-circle release: the preview
counter keeps its value 1. -/
theorem single_release_frame_witness :
    oneScene.gameIsRunning = true
    ∧ oneScene.selectedCircles.length = 1
    ∧ onPointerUp 2 srcZero oneScene = { oneScene with selectedCircles := [] } :=
  ⟨rfl, rfl, (single_release_frame 2 srcZero oneScene rfl).1 rfl⟩

end Dots
